import Mathlib

/-!
Shallow embedding of the FlowBoard optimistic-update kanban store
(`src/store/kanbanStore.js`, `src/utils/mockAPI.js`) together with the thin
UI guards that call into it (`AddTaskForm.handleSubmit`,
`TaskCard.handleSave`, `Column.handleDrop`).

External effects are made explicit parameters:
  * `Date.now()` readings become `Nat` arguments (`t`, `t2`, ...);
  * the mock API's random failure draw (`Math.random() < FAILURE_RATE`)
    becomes a `Bool` argument `fail`;
  * the random suffix of the server-minted id becomes a `String` argument.
Each store operation returns an `OpRun` recording the synchronous optimistic
state, the settled final state, the remote calls issued and the toast
notifications emitted, so that "no remote call" / "no notification" claims
are statable.
-/

namespace FlowBoard

/-- The `COLUMNS` constant of `kanbanStore.js`. -/
def COLUMNS.TODO : String := "todo"

/-- The `COLUMNS` constant of `kanbanStore.js`. -/
def COLUMNS.IN_PROGRESS : String := "inProgress"

/-- The `COLUMNS` constant of `kanbanStore.js`. -/
def COLUMNS.DONE : String := "done"

/-- A work item of the board, as stored in `state.tasks`. -/
structure Task where
  id : String
  title : String
  column : String
  createdAt : Int
  deriving DecidableEq, Repr

/-- The logged-in user object set by `login`. -/
structure User where
  username : String
  loggedInAt : Int
  deriving DecidableEq, Repr

/-- The persisted slice of the zustand store: `{ tasks, user }`. -/
structure StoreState where
  tasks : List Task
  user : Option User
  deriving DecidableEq, Repr

/-- The seeded `initialTasks` array, parameterised by the module-load time
`now` (the JS file evaluates `Date.now()` once when the module loads). -/
def initialTasks (now : Int) : List Task :=
  [ { id := "1", title := "Design landing page mockup",
      column := COLUMNS.TODO, createdAt := now },
    { id := "2", title := "Implement authentication flow",
      column := COLUMNS.IN_PROGRESS, createdAt := now - 1000 },
    { id := "3", title := "Setup project repository",
      column := COLUMNS.DONE, createdAt := now - 2000 } ]

/-- The error thrown by the mock API (`MockAPIError`). -/
structure MockAPIError where
  message : String
  operation : String
  deriving DecidableEq, Repr

/-- A remote call issued to `mockAPI`, with the arguments the store passes. -/
inductive RemoteCall where
  | add (task : Task)
  | move (taskId fromColumn toColumn : String)
  | del (taskId : String)
  | update (taskId newTitle : String)
  deriving DecidableEq, Repr

/-- A `react-hot-toast` notification emitted by the store. -/
structure Toast where
  success : Bool
  message : String
  deriving DecidableEq, Repr

/-- The observable trace of one store operation: the state right after the
synchronous optimistic apply, the state after the remote call settles, the
remote calls issued and the toasts emitted. -/
structure OpRun where
  optimistic : List Task
  final : List Task
  calls : List RemoteCall
  toasts : List Toast
  deriving DecidableEq, Repr

/-- The trace of an operation that returns early: no state change, no remote
call, no toast. -/
def noopRun (tasks : List Task) : OpRun :=
  { optimistic := tasks, final := tasks, calls := [], toasts := [] }

/-- The provisional id minted by `addTask`: `` `temp-${Date.now()}` ``. -/
def tempId (t : Nat) : String := "temp-" ++ Nat.repr t

/-- The canonical id minted by `mockAPI.addTask`:
`Date.now().toString() + Math.random().toString(36).substr(2, 9)`, with the
second summand abstracted as the string `r`. -/
def serverId (t2 : Nat) (r : String) : String := Nat.repr t2 ++ r

namespace mockAPI

/-- `mockAPI.addTask`: fails with the fixed error when the random draw says
so, otherwise returns the task with a freshly minted server id. -/
def addTask (task : Task) (fail : Bool) (t2 : Nat) (r : String) :
    Except MockAPIError Task :=
  if fail then
    .error { message := "Failed to add task. Please try again.", operation := "add" }
  else
    .ok { task with id := serverId t2 r }

/-- `mockAPI.moveTask`; the ack payload is ignored by the store, so it is
collapsed to `Unit`. -/
def moveTask (fail : Bool) : Except MockAPIError Unit :=
  if fail then
    .error { message := "Failed to move task. Please try again.", operation := "move" }
  else
    .ok ()

/-- `mockAPI.deleteTask`; ack payload collapsed to `Unit`. -/
def deleteTask (fail : Bool) : Except MockAPIError Unit :=
  if fail then
    .error { message := "Failed to delete task. Please try again.", operation := "delete" }
  else
    .ok ()

/-- `mockAPI.updateTask`; ack payload collapsed to `Unit`. -/
def updateTask (fail : Bool) : Except MockAPIError Unit :=
  if fail then
    .error { message := "Failed to update task. Please try again.", operation := "update" }
  else
    .ok ()

end mockAPI

/-- The provisional task built inside `addTask` (`optimisticTask`). -/
def optimisticTask (title : String) (t : Nat) : Task :=
  { id := tempId t, title := title, column := COLUMNS.TODO, createdAt := (t : Int) }

/-- The synchronous optimistic phase of `addTask`:
`tasks: [...state.tasks, optimisticTask]`. -/
def addTaskOptimistic (tasks : List Task) (title : String) (t : Nat) : List Task :=
  tasks ++ [optimisticTask title t]

/-- `addTask(title)` of `kanbanStore.js`, run to settlement.  Note that the
store performs no validation of `title`: the optimistic append, the remote
call and a toast happen unconditionally. -/
def addTask (tasks : List Task) (title : String) (t : Nat) (fail : Bool)
    (t2 : Nat) (r : String) : OpRun :=
  let optimistic := addTaskOptimistic tasks title t
  match mockAPI.addTask (optimisticTask title t) fail t2 r with
  | .ok serverTask =>
    { optimistic := optimistic
      final := optimistic.map fun task =>
        if task.id == tempId t then { serverTask with column := COLUMNS.TODO } else task
      calls := [RemoteCall.add (optimisticTask title t)]
      toasts := [{ success := true, message := "Task added successfully!" }] }
  | .error e =>
    { optimistic := optimistic
      final := optimistic.filter fun task => task.id != tempId t
      calls := [RemoteCall.add (optimisticTask title t)]
      toasts := [{ success := false, message := e.message }] }

/-- `moveTask(taskId, targetColumn)` of `kanbanStore.js`, run to
settlement. -/
def moveTask (tasks : List Task) (taskId targetColumn : String) (fail : Bool) :
    OpRun :=
  match tasks.find? (fun task => task.id == taskId) with
  | none => noopRun tasks
  | some taskToMove =>
    let originalColumn := taskToMove.column
    let optimistic := tasks.map fun task =>
      if task.id == taskId then { task with column := targetColumn } else task
    match mockAPI.moveTask fail with
    | .ok _ =>
      { optimistic := optimistic, final := optimistic
        calls := [RemoteCall.move taskId originalColumn targetColumn]
        toasts := [{ success := true, message := "Task moved successfully!" }] }
    | .error e =>
      { optimistic := optimistic
        final := optimistic.map fun task =>
          if task.id == taskId then { task with column := originalColumn } else task
        calls := [RemoteCall.move taskId originalColumn targetColumn]
        toasts := [{ success := false, message := e.message }] }

/-- `deleteTask(taskId)` of `kanbanStore.js`, run to settlement.  The
failure rollback re-appends the snapshot and sorts the whole array by
`createdAt` ascending (`.sort((a, b) => a.createdAt - b.createdAt)`,
a stable sort in JS, modelled by `List.mergeSort`). -/
def deleteTask (tasks : List Task) (taskId : String) (fail : Bool) : OpRun :=
  match tasks.find? (fun task => task.id == taskId) with
  | none => noopRun tasks
  | some taskToDelete =>
    let optimistic := tasks.filter fun task => task.id != taskId
    match mockAPI.deleteTask fail with
    | .ok _ =>
      { optimistic := optimistic, final := optimistic
        calls := [RemoteCall.del taskId]
        toasts := [{ success := true, message := "Task deleted successfully!" }] }
    | .error e =>
      { optimistic := optimistic
        final := (optimistic ++ [taskToDelete]).mergeSort
          fun a b => a.createdAt ≤ b.createdAt
        calls := [RemoteCall.del taskId]
        toasts := [{ success := false, message := e.message }] }

/-- `updateTaskTitle(taskId, newTitle)` of `kanbanStore.js`, run to
settlement.  Note that the store performs no comparison of `newTitle` with
the current title. -/
def updateTaskTitle (tasks : List Task) (taskId newTitle : String)
    (fail : Bool) : OpRun :=
  match tasks.find? (fun task => task.id == taskId) with
  | none => noopRun tasks
  | some taskToUpdate =>
    let originalTitle := taskToUpdate.title
    let optimistic := tasks.map fun task =>
      if task.id == taskId then { task with title := newTitle } else task
    match mockAPI.updateTask fail with
    | .ok _ =>
      { optimistic := optimistic, final := optimistic
        calls := [RemoteCall.update taskId newTitle]
        toasts := [{ success := true, message := "Task updated successfully!" }] }
    | .error e =>
      { optimistic := optimistic
        final := optimistic.map fun task =>
          if task.id == taskId then { task with title := originalTitle } else task
        calls := [RemoteCall.update taskId newTitle]
        toasts := [{ success := false, message := e.message }] }

/-- `login(username)` of `kanbanStore.js`. -/
def login (s : StoreState) (username : String) (t : Int) : StoreState :=
  { s with user := some { username := username, loggedInAt := t } }

/-- `logout()` of `kanbanStore.js`: clears the user and resets `tasks` to
the module-level `initialTasks` array (seeded at module-load time `t0`). -/
def logout (t0 : Int) (_s : StoreState) : StoreState :=
  { tasks := initialTasks t0, user := none }

/-- `getTasksByColumn(column)` of `kanbanStore.js`. -/
def getTasksByColumn (tasks : List Task) (column : String) : List Task :=
  tasks.filter fun task => task.column == column

/-- JS `String.prototype.trim()`: strips whitespace from both ends.
Modelled structurally on the character list (Lean's own `String.trim` is
extensionally the same but is not kernel-reducible). -/
def strTrim (s : String) : String :=
  List.asString (((s.data.dropWhile Char.isWhitespace).reverse.dropWhile
    Char.isWhitespace).reverse)

/-- `AddTaskForm.handleSubmit`: returns early when the typed title trims to
empty, otherwise calls `addTask` with the trimmed title. -/
def handleSubmit (tasks : List Task) (taskTitle : String) (t : Nat)
    (fail : Bool) (t2 : Nat) (r : String) : OpRun :=
  if strTrim taskTitle == "" then noopRun tasks
  else addTask tasks (strTrim taskTitle) t fail t2 r

/-- `TaskCard.handleSave`: calls `updateTaskTitle` only when the edited
title is non-blank and differs (as a raw string) from the current title. -/
def handleSave (tasks : List Task) (task : Task) (editTitle : String)
    (fail : Bool) : OpRun :=
  if strTrim editTitle != "" && editTitle != task.title then
    updateTaskTitle tasks task.id (strTrim editTitle) fail
  else noopRun tasks

/-- `Column.handleDrop`: calls `moveTask` only when the drag's source column
differs from the drop target column. -/
def handleDrop (tasks : List Task) (taskId sourceColumn columnId : String)
    (fail : Bool) : OpRun :=
  if sourceColumn != columnId then moveTask tasks taskId columnId fail
  else noopRun tasks

/-! ### Decimal representation facts

`tempId` and `serverId` are built from `Nat.repr`.  The following
development characterises `Nat.repr` as a nonempty string of decimal digit
characters and proves it injective, which is what the id-uniqueness claims
rest on. -/

/-- The decimal digit list of `n`, most significant digit first; the
reference function that `Nat.toDigitsCore` computes. -/
def natDigits (n : Nat) : List Char :=
  if h : n < 10 then [Nat.digitChar n]
  else
    have : n / 10 < n := Nat.div_lt_self (by omega) (by omega)
    natDigits (n / 10) ++ [Nat.digitChar (n % 10)]

theorem natDigits_of_lt {n : Nat} (h : n < 10) :
    natDigits n = [Nat.digitChar n] := by
  rw [natDigits]
  simp [h]

theorem natDigits_of_ge {n : Nat} (h : ¬ n < 10) :
    natDigits n = natDigits (n / 10) ++ [Nat.digitChar (n % 10)] := by
  rw [natDigits]
  simp [h]

theorem toDigitsCore_eq_natDigits :
    ∀ (fuel n : Nat) (ds : List Char), n < fuel →
      Nat.toDigitsCore 10 fuel n ds = natDigits n ++ ds := by
  intro fuel
  induction fuel with
  | zero => intro n ds h; omega
  | succ fuel ih =>
    intro n ds _
    rw [Nat.toDigitsCore]
    by_cases h10 : n < 10
    · have hdiv : n / 10 = 0 := Nat.div_eq_of_lt h10
      have hmod : n % 10 = n := Nat.mod_eq_of_lt h10
      simp [hdiv, hmod, natDigits_of_lt h10]
    · have hdiv : ¬ n / 10 = 0 := by
        have h1 : 1 ≤ n / 10 := (Nat.le_div_iff_mul_le (by omega)).mpr (by omega)
        omega
      have hlt : n / 10 < fuel := by
        have h1 : n / 10 < n := Nat.div_lt_self (by omega) (by omega)
        omega
      simp only [if_neg hdiv, ih (n / 10) _ hlt, natDigits_of_ge h10,
        List.append_assoc, List.singleton_append]

theorem repr_eq_natDigits (n : Nat) : (Nat.repr n).data = natDigits n := by
  show (Nat.toDigits 10 n).asString.data = natDigits n
  rw [Nat.toDigits, toDigitsCore_eq_natDigits (n + 1) n [] (Nat.lt_succ_self n)]
  simp [List.asString]

theorem digitChar_isDigit {d : Nat} (h : d < 10) :
    (Nat.digitChar d).isDigit = true := by
  interval_cases d <;> decide

theorem natDigits_all_digit :
    ∀ n : Nat, ∀ c ∈ natDigits n, c.isDigit = true := by
  intro n
  induction n using Nat.strong_induction_on with
  | _ n ih =>
    intro c hc
    by_cases h10 : n < 10
    · rw [natDigits_of_lt h10] at hc
      simp at hc
      subst hc
      exact digitChar_isDigit h10
    · rw [natDigits_of_ge h10] at hc
      rcases List.mem_append.mp hc with h | h
      · exact ih (n / 10) (Nat.div_lt_self (by omega) (by omega)) c h
      · simp at h
        subst h
        exact digitChar_isDigit (Nat.mod_lt _ (by omega))

theorem natDigits_ne_nil (n : Nat) : natDigits n ≠ [] := by
  by_cases h10 : n < 10
  · rw [natDigits_of_lt h10]; simp
  · rw [natDigits_of_ge h10]; simp

theorem digitChar_toNat {d : Nat} (h : d < 10) :
    (Nat.digitChar d).toNat = 48 + d := by
  interval_cases d <;> decide

/-- Reading a most-significant-first digit-character list back as a number. -/
def digitsVal (l : List Char) : Nat :=
  l.foldl (fun a c => 10 * a + (c.toNat - 48)) 0

theorem digitsVal_natDigits : ∀ n : Nat, digitsVal (natDigits n) = n := by
  intro n
  induction n using Nat.strong_induction_on with
  | _ n ih =>
    by_cases h10 : n < 10
    · rw [natDigits_of_lt h10]
      simp [digitsVal, digitChar_toNat h10]
    · rw [natDigits_of_ge h10]
      have hmod : n % 10 < 10 := Nat.mod_lt _ (by omega)
      have ihdiv := ih (n / 10) (Nat.div_lt_self (by omega) (by omega))
      simp only [digitsVal, List.foldl_append, List.foldl_cons, List.foldl_nil]
      have : (natDigits (n / 10)).foldl (fun a c => 10 * a + (c.toNat - 48)) 0 = n / 10 :=
        ihdiv
      rw [this, digitChar_toNat hmod]
      omega

theorem natDigits_injective {n m : Nat} (h : natDigits n = natDigits m) :
    n = m := by
  have := congrArg digitsVal h
  rwa [digitsVal_natDigits, digitsVal_natDigits] at this

theorem nat_repr_injective {n m : Nat} (h : Nat.repr n = Nat.repr m) :
    n = m := by
  have hdata := congrArg String.data h
  rw [repr_eq_natDigits, repr_eq_natDigits] at hdata
  exact natDigits_injective hdata

/-- Distinct mint times yield distinct provisional ids. -/
theorem tempId_injective {t t' : Nat} (h : tempId t = tempId t') : t = t' := by
  have hdata := congrArg String.data h
  simp only [tempId, String.data_append] at hdata
  have hr : (Nat.repr t).data = (Nat.repr t').data :=
    List.append_cancel_left hdata
  rw [repr_eq_natDigits, repr_eq_natDigits] at hr
  exact natDigits_injective hr

/-- A server-minted canonical id never equals any provisional id: canonical
ids start with a decimal digit, provisional ids with `'t'`. -/
theorem serverId_ne_tempId (t2 : Nat) (r : String) (t : Nat) :
    serverId t2 r ≠ tempId t := by
  intro h
  have hdata := congrArg String.data h
  simp only [serverId, tempId, String.data_append, repr_eq_natDigits] at hdata
  rcases hhead : natDigits t2 with _ | ⟨c, cs⟩
  · exact natDigits_ne_nil t2 hhead
  · have hc : c.isDigit = true :=
      natDigits_all_digit t2 c (by rw [hhead]; exact List.mem_cons_self c cs)
    rw [hhead] at hdata
    have : c = 't' := by
      have := congrArg List.head? hdata
      simpa using this
    rw [this] at hc
    exact absurd hc (by decide)

/-! ### Helper lemmas about the store operations -/

/-- In a collection with pairwise-distinct ids, `find` on a member's id
returns exactly that member. -/
theorem find_id_eq_some {tasks : List Task} {task : Task}
    (hnodup : (tasks.map Task.id).Nodup) (hmem : task ∈ tasks) :
    tasks.find? (fun u => u.id == task.id) = some task := by
  induction tasks with
  | nil => cases hmem
  | cons head tail ih =>
    rw [List.map_cons, List.nodup_cons] at hnodup
    rcases List.mem_cons.mp hmem with heq | hmem2
    · subst heq
      exact List.find?_cons_of_pos _ (by simp)
    · have hne : head.id ≠ task.id := fun h =>
        hnodup.1 (h ▸ List.mem_map_of_mem Task.id hmem2)
      rw [List.find?_cons_of_neg _ (by simp [hne])]
      exact ih hnodup.2 hmem2

/-- In a collection with pairwise-distinct ids, members with equal ids are
equal. -/
theorem eq_of_same_id {tasks : List Task} {u v : Task}
    (hnodup : (tasks.map Task.id).Nodup) (hu : u ∈ tasks) (hv : v ∈ tasks)
    (h : u.id = v.id) : u = v :=
  List.inj_on_of_nodup_map hnodup hu hv h

/-- A map that only rewrites entries with a given id is the identity on a
collection that does not contain that id. -/
theorem map_if_id_eq_self (tasks : List Task) (taskId : String)
    (f : Task → Task) (h : ∀ u ∈ tasks, u.id ≠ taskId) :
    (tasks.map fun u => if u.id == taskId then f u else u) = tasks := by
  induction tasks with
  | nil => rfl
  | cons hd tl ih =>
    have hh : hd.id ≠ taskId := h hd (List.mem_cons_self hd tl)
    have ht := ih fun u hu => h u (List.mem_cons_of_mem hd hu)
    rw [List.map_cons, ht, if_neg (by simpa using hh)]

/-- A filter that drops entries with a given id keeps a collection that
does not contain that id intact. -/
theorem filter_ne_id_eq_self (tasks : List Task) (taskId : String)
    (h : ∀ u ∈ tasks, u.id ≠ taskId) :
    (tasks.filter fun u => u.id != taskId) = tasks :=
  List.filter_eq_self.mpr (by intro u hu; simpa using h u hu)

/-- Removing the unique entry with a given id and re-appending it is a
permutation of the original collection. -/
theorem filter_ne_append_perm {tasks : List Task} {task : Task}
    (hnodup : (tasks.map Task.id).Nodup) (hmem : task ∈ tasks) :
    ((tasks.filter fun u => u.id != task.id) ++ [task]).Perm tasks := by
  induction tasks with
  | nil => cases hmem
  | cons hd tl ih =>
    rw [List.map_cons, List.nodup_cons] at hnodup
    rcases List.mem_cons.mp hmem with heq | hmem2
    · have htail : (tl.filter fun u => u.id != task.id) = tl :=
        filter_ne_id_eq_self tl task.id fun u hu h =>
          hnodup.1 (heq ▸ h ▸ List.mem_map_of_mem Task.id hu)
      rw [List.filter_cons, if_neg (by simp [heq]), htail, heq]
      exact List.perm_append_singleton hd tl
    · have hne : hd.id ≠ task.id := fun h =>
        hnodup.1 (h ▸ List.mem_map_of_mem Task.id hmem2)
      rw [List.filter_cons, if_pos (by simpa using hne), List.cons_append]
      exact (ih hnodup.2 hmem2).cons hd

/-- Branch unfolding for `addTask`: the full trace on each outcome. -/
theorem addTask_run (tasks : List Task) (title : String) (t : Nat)
    (fail : Bool) (t2 : Nat) (r : String) :
    addTask tasks title t fail t2 r =
      if fail then
        { optimistic := addTaskOptimistic tasks title t
          final := (addTaskOptimistic tasks title t).filter fun u =>
            u.id != tempId t
          calls := [RemoteCall.add (optimisticTask title t)]
          toasts := [{ success := false,
                       message := "Failed to add task. Please try again." }] }
      else
        { optimistic := addTaskOptimistic tasks title t
          final := (addTaskOptimistic tasks title t).map fun u =>
            if u.id == tempId t then
              { id := serverId t2 r, title := title, column := COLUMNS.TODO,
                createdAt := (t : Int) }
            else u
          calls := [RemoteCall.add (optimisticTask title t)]
          toasts := [{ success := true,
                       message := "Task added successfully!" }] } := by
  cases fail <;> simp [addTask, mockAPI.addTask, optimisticTask]

/-- Branch unfolding for `moveTask` when the id resolves. -/
theorem moveTask_found (tasks : List Task) (taskToMove : Task)
    (taskId targetColumn : String) (fail : Bool)
    (hfind : tasks.find? (fun u => u.id == taskId) = some taskToMove) :
    moveTask tasks taskId targetColumn fail =
      if fail then
        { optimistic := tasks.map fun u =>
            if u.id == taskId then { u with column := targetColumn } else u
          final := (tasks.map fun u =>
            if u.id == taskId then { u with column := targetColumn }
            else u).map fun u =>
              if u.id == taskId then { u with column := taskToMove.column }
              else u
          calls := [RemoteCall.move taskId taskToMove.column targetColumn]
          toasts := [{ success := false,
                       message := "Failed to move task. Please try again." }] }
      else
        { optimistic := tasks.map fun u =>
            if u.id == taskId then { u with column := targetColumn } else u
          final := tasks.map fun u =>
            if u.id == taskId then { u with column := targetColumn } else u
          calls := [RemoteCall.move taskId taskToMove.column targetColumn]
          toasts := [{ success := true,
                       message := "Task moved successfully!" }] } := by
  cases fail <;> simp [moveTask, hfind, mockAPI.moveTask]

/-- Branch unfolding for `deleteTask` when the id resolves. -/
theorem deleteTask_found (tasks : List Task) (taskToDelete : Task)
    (taskId : String) (fail : Bool)
    (hfind : tasks.find? (fun u => u.id == taskId) = some taskToDelete) :
    deleteTask tasks taskId fail =
      if fail then
        { optimistic := tasks.filter fun u => u.id != taskId
          final := ((tasks.filter fun u => u.id != taskId) ++
            [taskToDelete]).mergeSort fun a b => a.createdAt ≤ b.createdAt
          calls := [RemoteCall.del taskId]
          toasts := [{ success := false,
                       message := "Failed to delete task. Please try again." }] }
      else
        { optimistic := tasks.filter fun u => u.id != taskId
          final := tasks.filter fun u => u.id != taskId
          calls := [RemoteCall.del taskId]
          toasts := [{ success := true,
                       message := "Task deleted successfully!" }] } := by
  cases fail <;> simp [deleteTask, hfind, mockAPI.deleteTask]

/-- Branch unfolding for `updateTaskTitle` when the id resolves. -/
theorem updateTaskTitle_found (tasks : List Task) (taskToUpdate : Task)
    (taskId newTitle : String) (fail : Bool)
    (hfind : tasks.find? (fun u => u.id == taskId) = some taskToUpdate) :
    updateTaskTitle tasks taskId newTitle fail =
      if fail then
        { optimistic := tasks.map fun u =>
            if u.id == taskId then { u with title := newTitle } else u
          final := (tasks.map fun u =>
            if u.id == taskId then { u with title := newTitle }
            else u).map fun u =>
              if u.id == taskId then { u with title := taskToUpdate.title }
              else u
          calls := [RemoteCall.update taskId newTitle]
          toasts := [{ success := false,
                       message := "Failed to update task. Please try again." }] }
      else
        { optimistic := tasks.map fun u =>
            if u.id == taskId then { u with title := newTitle } else u
          final := tasks.map fun u =>
            if u.id == taskId then { u with title := newTitle } else u
          calls := [RemoteCall.update taskId newTitle]
          toasts := [{ success := true,
                       message := "Task updated successfully!" }] } := by
  cases fail <;> simp [updateTaskTitle, hfind, mockAPI.updateTask]

/-- On the success path `addTask` replaces the provisional item in place by
the canonical one. -/
theorem addTask_success_final_eq (tasks : List Task) (title : String)
    (t t2 : Nat) (r : String) (hfresh : tempId t ∉ tasks.map Task.id) :
    (addTask tasks title t false t2 r).final =
      tasks ++ [{ id := serverId t2 r, title := title, column := COLUMNS.TODO,
                  createdAt := (t : Int) }] := by
  rw [addTask_run, if_neg (by simp)]
  show ((addTaskOptimistic tasks title t).map fun u =>
      if u.id == tempId t then
        { id := serverId t2 r, title := title, column := COLUMNS.TODO,
          createdAt := (t : Int) }
      else u) = _
  rw [addTaskOptimistic, List.map_append,
    map_if_id_eq_self tasks (tempId t) _
      (fun u hu h => hfresh (h ▸ List.mem_map_of_mem Task.id hu))]
  simp [optimisticTask]

/-- On the failure path `addTask` removes the provisional item entirely,
leaving the original collection. -/
theorem addTask_failure_final_eq (tasks : List Task) (title : String)
    (t t2 : Nat) (r : String) (hfresh : tempId t ∉ tasks.map Task.id) :
    (addTask tasks title t true t2 r).final = tasks := by
  rw [addTask_run, if_pos rfl]
  show ((addTaskOptimistic tasks title t).filter fun u =>
    u.id != tempId t) = _
  rw [addTaskOptimistic, List.filter_append,
    filter_ne_id_eq_self tasks (tempId t)
      (fun u hu h => hfresh (h ▸ List.mem_map_of_mem Task.id hu))]
  simp [optimisticTask]

/-! ### Claim theorems -/

/-- **C7**: for every id not present in the collection at call time,
`moveTask`, `deleteTask` and `updateTaskTitle` are silent no-ops: the
collection is unchanged, no remote call is made and no toast is emitted. -/
theorem claim_C7_missing_id_silent_noop (tasks : List Task)
    (taskId targetColumn newTitle : String) (fail : Bool)
    (h : ∀ task ∈ tasks, task.id ≠ taskId) :
    moveTask tasks taskId targetColumn fail = noopRun tasks ∧
    deleteTask tasks taskId fail = noopRun tasks ∧
    updateTaskTitle tasks taskId newTitle fail = noopRun tasks := by
  have hfind : tasks.find? (fun task => task.id == taskId) = none :=
    List.find?_eq_none.mpr (by intro u hu; simpa using h u hu)
  refine ⟨?_, ?_, ?_⟩ <;>
    simp [moveTask, deleteTask, updateTaskTitle, hfind]

/-- Witness for C7 at a concrete input. -/
theorem claim_C7_witness :
    moveTask (initialTasks 0) "nonexistent" "done" true =
      noopRun (initialTasks 0) ∧
    deleteTask (initialTasks 0) "nonexistent" true =
      noopRun (initialTasks 0) ∧
    updateTaskTitle (initialTasks 0) "nonexistent" "New title" true =
      noopRun (initialTasks 0) :=
  claim_C7_missing_id_silent_noop (initialTasks 0) "nonexistent" "done"
    "New title" true (by decide)

/-- **C8**: `logout` sets the session to absent and resets the collection
to exactly the fixed seeded three-item initial set, for every prior state
(i.e. regardless of mutations applied since login). -/
theorem claim_C8_logout_resets (t0 : Int) (s : StoreState) :
    logout t0 s =
      { user := none,
        tasks := [ { id := "1", title := "Design landing page mockup",
                     column := "todo", createdAt := t0 },
                   { id := "2", title := "Implement authentication flow",
                     column := "inProgress", createdAt := t0 - 1000 },
                   { id := "3", title := "Setup project repository",
                     column := "done", createdAt := t0 - 2000 } ] } := rfl

/-- **C5**: `moveTask` on an existing id applies `targetColumn`
immediately; a remote failure restores the collection exactly (hence the
item's stage to its pre-call value), and a remote success makes no change
beyond the optimistic one. -/
theorem claim_C5_move_rollback (tasks : List Task) (task : Task)
    (targetColumn : String) (fail : Bool)
    (hnodup : (tasks.map Task.id).Nodup) (hmem : task ∈ tasks) :
    (moveTask tasks task.id targetColumn fail).optimistic =
      (tasks.map fun u =>
        if u.id == task.id then { u with column := targetColumn } else u) ∧
    (moveTask tasks task.id targetColumn true).final = tasks ∧
    (moveTask tasks task.id targetColumn false).final =
      (moveTask tasks task.id targetColumn false).optimistic := by
  have hfind := find_id_eq_some hnodup hmem
  refine ⟨?_, ?_, ?_⟩
  · rw [moveTask_found tasks task task.id targetColumn fail hfind]
    cases fail <;> simp
  · rw [moveTask_found tasks task task.id targetColumn true hfind,
      if_pos rfl]
    show ((tasks.map fun u =>
        if u.id == task.id then { u with column := targetColumn } else u).map
          fun u => if u.id == task.id then { u with column := task.column }
            else u) = tasks
    rw [List.map_map]
    have hpt : ∀ u ∈ tasks, ((fun u =>
        if u.id == task.id then { u with column := task.column } else u) ∘
        fun u => if u.id == task.id then { u with column := targetColumn }
          else u) u = u := by
      intro u hu
      by_cases hid : u.id = task.id
      · have : u = task := eq_of_same_id hnodup hu hmem hid
        subst this
        simp
      · simp [Function.comp, hid]
    rw [List.map_congr_left hpt]
    exact List.map_id tasks
  · rw [moveTask_found tasks task task.id targetColumn false hfind,
      if_neg (by simp)]

/-- Witness for C5 at a concrete input. -/
theorem claim_C5_witness :
    (moveTask (initialTasks 0) "2" "done" true).optimistic =
      ((initialTasks 0).map fun u =>
        if u.id == "2" then { u with column := "done" } else u) ∧
    (moveTask (initialTasks 0) "2" "done" true).final = initialTasks 0 ∧
    (moveTask (initialTasks 0) "2" "done" false).final =
      (moveTask (initialTasks 0) "2" "done" false).optimistic :=
  claim_C5_move_rollback (initialTasks 0)
    { id := "2", title := "Implement authentication flow",
      column := COLUMNS.IN_PROGRESS, createdAt := -1000 } "done" true
    (by decide) (by decide)

/-- An id-targeted map leaves every entry with a different id in place. -/
theorem map_if_getElem (tasks : List Task) (taskId : String)
    (f : Task → Task) (i : Nat) (task : Task) (h : tasks[i]? = some task)
    (hne : task.id ≠ taskId) :
    (tasks.map fun u => if u.id == taskId then f u else u)[i]? = some task := by
  rw [List.getElem?_map, h]
  simp [hne]

/-- **C10**: both the optimistic apply and the failure rollback of
`moveTask` and `updateTaskTitle` preserve the length of the collection and
leave every task whose id differs from the targeted one unchanged at its
position. -/
theorem claim_C10_frame (tasks : List Task)
    (taskId targetColumn newTitle : String) (fail : Bool) :
    ((moveTask tasks taskId targetColumn fail).optimistic.length =
        tasks.length ∧
     (moveTask tasks taskId targetColumn fail).final.length = tasks.length ∧
     (updateTaskTitle tasks taskId newTitle fail).optimistic.length =
        tasks.length ∧
     (updateTaskTitle tasks taskId newTitle fail).final.length =
        tasks.length) ∧
    ∀ i : Nat, ∀ task : Task, tasks[i]? = some task → task.id ≠ taskId →
      (moveTask tasks taskId targetColumn fail).optimistic[i]? = some task ∧
      (moveTask tasks taskId targetColumn fail).final[i]? = some task ∧
      (updateTaskTitle tasks taskId newTitle fail).optimistic[i]? =
        some task ∧
      (updateTaskTitle tasks taskId newTitle fail).final[i]? = some task := by
  cases hfind : tasks.find? (fun u => u.id == taskId) with
  | none =>
    have h1 : moveTask tasks taskId targetColumn fail = noopRun tasks := by
      simp [moveTask, hfind]
    have h2 : updateTaskTitle tasks taskId newTitle fail = noopRun tasks := by
      simp [updateTaskTitle, hfind]
    rw [h1, h2]
    exact ⟨⟨rfl, rfl, rfl, rfl⟩, fun _ _ h _ => ⟨h, h, h, h⟩⟩
  | some found =>
    rw [moveTask_found tasks found taskId targetColumn fail hfind,
      updateTaskTitle_found tasks found taskId newTitle fail hfind]
    cases fail with
    | false =>
      rw [if_neg Bool.false_ne_true, if_neg Bool.false_ne_true]
      refine ⟨⟨by simp, by simp, by simp, by simp⟩, ?_⟩
      intro i task h hne
      exact ⟨map_if_getElem _ _ _ _ _ h hne, map_if_getElem _ _ _ _ _ h hne,
             map_if_getElem _ _ _ _ _ h hne, map_if_getElem _ _ _ _ _ h hne⟩
    | true =>
      rw [if_pos rfl, if_pos rfl]
      refine ⟨⟨by simp, by simp, by simp, by simp⟩, ?_⟩
      intro i task h hne
      have hm1 := map_if_getElem tasks taskId
        (fun u => { u with column := targetColumn }) i task h hne
      have hm2 := map_if_getElem _ taskId
        (fun u => { u with column := found.column }) i task hm1 hne
      have hu1 := map_if_getElem tasks taskId
        (fun u => { u with title := newTitle }) i task h hne
      have hu2 := map_if_getElem _ taskId
        (fun u => { u with title := found.title }) i task hu1 hne
      exact ⟨hm1, hm2, hu1, hu2⟩

/-- Witness for C10 at a concrete input. -/
theorem claim_C10_witness :
    (moveTask (initialTasks 0) "2" "done" true).optimistic[0]? =
      some { id := "1", title := "Design landing page mockup",
             column := "todo", createdAt := 0 } ∧
    (moveTask (initialTasks 0) "2" "done" true).final[0]? =
      some { id := "1", title := "Design landing page mockup",
             column := "todo", createdAt := 0 } ∧
    (updateTaskTitle (initialTasks 0) "2" "New" true).optimistic[0]? =
      some { id := "1", title := "Design landing page mockup",
             column := "todo", createdAt := 0 } ∧
    (updateTaskTitle (initialTasks 0) "2" "New" true).final[0]? =
      some { id := "1", title := "Design landing page mockup",
             column := "todo", createdAt := 0 } :=
  (claim_C10_frame (initialTasks 0) "2" "done" "New" true).2 0
    { id := "1", title := "Design landing page mockup",
      column := "todo", createdAt := 0 } (by decide) (by decide)

/-- **C9**: the store's `moveTask` validates nothing about the target
column string: for an arbitrary string (including one outside the fixed
column set and including the task's current column) it applies it
optimistically and issues the remote relocate call; the only same-column
guard is `Column.handleDrop`, outside the store. -/
theorem claim_C9_move_no_validation (tasks : List Task) (task : Task)
    (targetColumn : String) (fail : Bool)
    (hnodup : (tasks.map Task.id).Nodup) (hmem : task ∈ tasks) :
    (moveTask tasks task.id targetColumn fail).optimistic =
      (tasks.map fun u =>
        if u.id == task.id then { u with column := targetColumn } else u) ∧
    (moveTask tasks task.id targetColumn fail).calls =
      [RemoteCall.move task.id task.column targetColumn] ∧
    ∀ sourceColumn columnId : String, ∀ fail2 : Bool,
      sourceColumn = columnId →
      handleDrop tasks task.id sourceColumn columnId fail2 =
        noopRun tasks := by
  have hfind := find_id_eq_some hnodup hmem
  rw [moveTask_found tasks task task.id targetColumn fail hfind]
  refine ⟨?_, ?_, ?_⟩
  · cases fail <;> simp
  · cases fail <;> simp
  · intro sourceColumn columnId fail2 h
    simp [handleDrop, h]

/-- Witness for C9 at a concrete input (the target is not a valid column
name, and the drop handler is exercised with equal source and target). -/
theorem claim_C9_witness :
    (moveTask (initialTasks 0) "1" "notAStage" true).optimistic =
      ((initialTasks 0).map fun u =>
        if u.id == "1" then { u with column := "notAStage" } else u) ∧
    (moveTask (initialTasks 0) "1" "notAStage" true).calls =
      [RemoteCall.move "1" "todo" "notAStage"] ∧
    handleDrop (initialTasks 0) "1" "done" "done" false =
      noopRun (initialTasks 0) := by
  have h := claim_C9_move_no_validation (initialTasks 0)
    { id := "1", title := "Design landing page mockup",
      column := COLUMNS.TODO, createdAt := 0 } "notAStage" true
    (by decide) (by decide)
  exact ⟨h.1, h.2.1, h.2.2 "done" "done" false rfl⟩

/-- Strict chronological order on tasks (ascending `createdAt`). -/
def createdAtLt (a b : Task) : Prop := a.createdAt < b.createdAt

instance : IsAntisymm Task createdAtLt :=
  ⟨fun a _ h h2 => absurd (lt_trans h h2) (lt_irrefl a.createdAt)⟩

instance (a b : Task) : Decidable (createdAtLt a b) :=
  inferInstanceAs (Decidable (a.createdAt < b.createdAt))

/-- **C4**: `deleteTask` on an existing id followed by a remote failure
reinserts the full snapshot and reorders the whole collection by
`createdAt` ascending: the final state is a permutation of the original,
sorted by `createdAt`; in particular if the original was already in strict
chronological order the item reappears exactly at its original position
(final state equals the original). On remote success nothing happens after
the optimistic removal. -/
theorem claim_C4_delete_rollback (tasks : List Task) (task : Task)
    (hnodup : (tasks.map Task.id).Nodup) (hmem : task ∈ tasks) :
    (deleteTask tasks task.id true).final.Perm tasks ∧
    (deleteTask tasks task.id true).final.Pairwise
      (fun a b => a.createdAt ≤ b.createdAt) ∧
    (tasks.Pairwise createdAtLt →
      (deleteTask tasks task.id true).final = tasks) ∧
    (deleteTask tasks task.id false).final =
      (deleteTask tasks task.id false).optimistic := by
  have hfind := find_id_eq_some hnodup hmem
  have hfe : (deleteTask tasks task.id true).final =
      ((tasks.filter fun u => u.id != task.id) ++ [task]).mergeSort
        fun a b => a.createdAt ≤ b.createdAt := by
    rw [deleteTask_found tasks task task.id true hfind, if_pos rfl]
  have hperm : (deleteTask tasks task.id true).final.Perm tasks := by
    rw [hfe]
    exact (List.mergeSort_perm _ _).trans (filter_ne_append_perm hnodup hmem)
  have hsorted : (deleteTask tasks task.id true).final.Pairwise
      (fun a b => a.createdAt ≤ b.createdAt) := by
    rw [hfe]
    have h := @List.sorted_mergeSort Task
      (fun a b : Task => decide (a.createdAt ≤ b.createdAt))
      (by intro a b c h1 h2; simp_all; omega)
      (by intro a b; simp [Int.le_total])
      ((tasks.filter fun u => u.id != task.id) ++ [task])
    exact h.imp (by simp)
  refine ⟨hperm, hsorted, ?_, ?_⟩
  · intro hstrict
    have hkeys : (tasks.map Task.createdAt).Pairwise (· < ·) :=
      List.pairwise_map.mpr hstrict
    have hkeysNodup : (tasks.map Task.createdAt).Nodup :=
      hkeys.imp ne_of_lt
    have hfinalKeysNodup :
        ((deleteTask tasks task.id true).final.map Task.createdAt).Nodup :=
      ((hperm.map Task.createdAt).nodup_iff).mpr hkeysNodup
    have hfinalNe : (deleteTask tasks task.id true).final.Pairwise
        (fun a b => a.createdAt ≠ b.createdAt) :=
      List.pairwise_map.mp hfinalKeysNodup
    have hfinalStrict : (deleteTask tasks task.id true).final.Pairwise
        createdAtLt :=
      (hsorted.and hfinalNe).imp fun h => lt_of_le_of_ne h.1 h.2
    exact List.eq_of_perm_of_sorted hperm hfinalStrict hstrict
  · rw [deleteTask_found tasks task task.id false hfind,
      if_neg Bool.false_ne_true]

/-- The three-item board of the delete-rollback scenario in the spec
(`createdAt` 10, 20, 30). -/
def exTasks : List Task :=
  [ { id := "a", title := "A", column := "todo", createdAt := 10 },
    { id := "b", title := "B", column := "inProgress", createdAt := 20 },
    { id := "c", title := "C", column := "done", createdAt := 30 } ]

/-- Witness for C4 at a concrete input: deleting the middle item and
failing restores the exact original order. -/
theorem claim_C4_witness :
    (deleteTask exTasks "b" true).final = exTasks ∧
    (deleteTask exTasks "b" false).final =
      (deleteTask exTasks "b" false).optimistic := by
  have h := claim_C4_delete_rollback exTasks
    { id := "b", title := "B", column := "inProgress", createdAt := 20 }
    (by decide) (by decide)
  exact ⟨h.2.2.1 (by decide), h.2.2.2⟩

/-- An id-targeted boolean-equality filter drops everything when the id is
absent. -/
theorem filter_id_eq_nil (tasks : List Task) (someId : String)
    (h : ∀ u ∈ tasks, u.id ≠ someId) :
    tasks.filter (fun u => u.id == someId) = [] := by
  induction tasks with
  | nil => rfl
  | cons hd tl ih =>
    rw [List.filter_cons,
      if_neg (by simpa using h hd (List.mem_cons_self hd tl))]
    exact ih fun u hu => h u (List.mem_cons_of_mem hd hu)

/-- **C3**: a successful `addTask` replaces the provisional item in place:
the final collection is the original one with the canonical item at the
same (last) position, the canonical id differs from the provisional id,
the stage (`todo`) and the other fields are preserved, and exactly one
item of that logical creation remains (none with the provisional id). -/
theorem claim_C3_create_success (tasks : List Task) (title : String)
    (t t2 : Nat) (r : String) (hfresh : tempId t ∉ tasks.map Task.id) :
    (addTask tasks title t false t2 r).optimistic =
      tasks ++ [optimisticTask title t] ∧
    (addTask tasks title t false t2 r).final =
      tasks ++ [{ id := serverId t2 r, title := title,
                  column := COLUMNS.TODO, createdAt := (t : Int) }] ∧
    serverId t2 r ≠ tempId t ∧
    (serverId t2 r ∉ tasks.map Task.id →
      ((addTask tasks title t false t2 r).final.filter fun u =>
        u.id == serverId t2 r) =
        [{ id := serverId t2 r, title := title, column := COLUMNS.TODO,
           createdAt := (t : Int) }] ∧
      ((addTask tasks title t false t2 r).final.filter fun u =>
        u.id == tempId t) = []) := by
  have hfin := addTask_success_final_eq tasks title t t2 r hfresh
  refine ⟨?_, hfin, serverId_ne_tempId t2 r t, ?_⟩
  · rw [addTask_run, if_neg Bool.false_ne_true]
    rfl
  · intro hS
    rw [hfin]
    constructor
    · rw [List.filter_append,
        filter_id_eq_nil tasks (serverId t2 r)
          (fun u hu h => hS (h ▸ List.mem_map_of_mem Task.id hu))]
      simp
    · rw [List.filter_append,
        filter_id_eq_nil tasks (tempId t)
          (fun u hu h => hfresh (h ▸ List.mem_map_of_mem Task.id hu))]
      simp [serverId_ne_tempId t2 r t]

/-- Witness for C3 at a concrete input. -/
theorem claim_C3_witness :
    (addTask (initialTasks 0) "Write spec" 5 false 7 "abc").final =
      initialTasks 0 ++
        [{ id := serverId 7 "abc", title := "Write spec",
           column := "todo", createdAt := 5 }] ∧
    ((addTask (initialTasks 0) "Write spec" 5 false 7 "abc").final.filter
      fun u => u.id == serverId 7 "abc") =
      [{ id := serverId 7 "abc", title := "Write spec", column := "todo",
         createdAt := 5 }] ∧
    ((addTask (initialTasks 0) "Write spec" 5 false 7 "abc").final.filter
      fun u => u.id == tempId 5) = [] := by
  have h := claim_C3_create_success (initialTasks 0) "Write spec" 5 7 "abc"
    (by decide)
  exact ⟨h.2.1, (h.2.2.2 (by decide)).1, (h.2.2.2 (by decide)).2⟩

/-- **C1** counterexample: two `addTask` calls whose `Date.now()` readings
fall in the same millisecond mint the same provisional id `temp-5`, so
while both are in flight the live collection holds two items with equal
ids — the claimed unconditional uniqueness fails. -/
theorem claim_C1_counterexample :
    ¬ (((addTaskOptimistic (addTaskOptimistic (initialTasks 0) "first" 5)
          "second" 5).map Task.id).Nodup) := by
  decide

/-- **C1 (amended)**: provided concurrent creates read distinct
`Date.now()` values and the minted provisional and canonical ids are fresh
for the collection, id uniqueness holds in every state of a create's
lifecycle: distinct provisional ids, a duplicate-free state with both
provisional items, duplicate-free optimistic and settled states, and no
state containing both the provisional and the canonical copy (the
provisional id is gone from the success state, which is produced by one
atomic replacement). -/
theorem claim_C1_amended (tasks : List Task) (title title2 : String)
    (t tb tS : Nat) (r : String)
    (hnodup : (tasks.map Task.id).Nodup)
    (hfresh : tempId t ∉ tasks.map Task.id)
    (hfreshb : tempId tb ∉ tasks.map Task.id)
    (hne : t ≠ tb)
    (hS : serverId tS r ∉ tasks.map Task.id) :
    tempId t ≠ tempId tb ∧
    ((addTaskOptimistic (addTaskOptimistic tasks title t) title2 tb).map
      Task.id).Nodup ∧
    ((addTask tasks title t false tS r).optimistic.map Task.id).Nodup ∧
    ((addTask tasks title t false tS r).final.map Task.id).Nodup ∧
    ((addTask tasks title t true tS r).final.map Task.id).Nodup ∧
    ((addTask tasks title t false tS r).final.filter fun u =>
      u.id == tempId t) = [] := by
  have htNe : tempId t ≠ tempId tb := fun h => hne (tempId_injective h)
  refine ⟨htNe, ?_, ?_, ?_, ?_, ?_⟩
  · have hmap : ((addTaskOptimistic (addTaskOptimistic tasks title t)
        title2 tb).map Task.id) =
        tasks.map Task.id ++ [tempId t, tempId tb] := by
      simp [addTaskOptimistic, optimisticTask]
    rw [hmap, List.nodup_append]
    refine ⟨hnodup, by simp [htNe], ?_⟩
    intro x hx hx2
    rcases List.mem_cons.mp hx2 with h | h
    · exact hfresh (h ▸ hx)
    · exact hfreshb ((List.mem_singleton.mp h) ▸ hx)
  · rw [addTask_run, if_neg Bool.false_ne_true]
    have hmap : ((addTaskOptimistic tasks title t).map Task.id) =
        tasks.map Task.id ++ [tempId t] := by
      simp [addTaskOptimistic, optimisticTask]
    rw [hmap, List.nodup_append]
    refine ⟨hnodup, by simp, ?_⟩
    intro x hx hx2
    exact hfresh ((List.mem_singleton.mp hx2) ▸ hx)
  · rw [addTask_success_final_eq tasks title t tS r hfresh]
    rw [List.map_append, List.nodup_append]
    refine ⟨hnodup, by simp, ?_⟩
    intro x hx hx2
    simp only [List.map_cons, List.map_nil] at hx2
    exact hS ((List.mem_singleton.mp hx2) ▸ hx)
  · rw [addTask_failure_final_eq tasks title t tS r hfresh]
    exact hnodup
  · rw [addTask_success_final_eq tasks title t tS r hfresh,
      List.filter_append,
      filter_id_eq_nil tasks (tempId t)
        (fun u hu h => hfresh (h ▸ List.mem_map_of_mem Task.id hu))]
    simp [serverId_ne_tempId tS r t]

/-- Witness for the amended C1 at a concrete input. -/
theorem claim_C1_witness :
    tempId 5 ≠ tempId 6 ∧
    ((addTaskOptimistic (addTaskOptimistic (initialTasks 0) "first" 5)
      "second" 6).map Task.id).Nodup ∧
    ((addTask (initialTasks 0) "first" 5 false 7 "abc").optimistic.map
      Task.id).Nodup ∧
    ((addTask (initialTasks 0) "first" 5 false 7 "abc").final.map
      Task.id).Nodup ∧
    ((addTask (initialTasks 0) "first" 5 true 7 "abc").final.map
      Task.id).Nodup ∧
    ((addTask (initialTasks 0) "first" 5 false 7 "abc").final.filter
      fun u => u.id == tempId 5) = [] :=
  claim_C1_amended (initialTasks 0) "first" "second" 5 6 7 "abc"
    (by decide) (by decide) (by decide) (by decide) (by decide)

/-- **C2** counterexample: the store's `addTask` performs no empty-title
validation — called with `""` it applies the optimistic append, issues the
remote call and emits a toast. -/
theorem claim_C2_counterexample :
    (addTask (initialTasks 0) "" 5 false 7 "abc").optimistic ≠
      initialTasks 0 ∧
    (addTask (initialTasks 0) "" 5 false 7 "abc").calls ≠ [] ∧
    (addTask (initialTasks 0) "" 5 false 7 "abc").toasts ≠ [] := by
  refine ⟨?_, ?_, ?_⟩ <;> decide

/-- **C2 (amended)**: the blank-title guard lives in the UI form, not the
store: `AddTaskForm.handleSubmit` returns before touching the store when
the typed title trims to empty, so the collection is unchanged, no remote
call is issued and no notification is emitted. -/
theorem claim_C2_amended (tasks : List Task) (taskTitle : String) (t : Nat)
    (fail : Bool) (t2 : Nat) (r : String) (h : strTrim taskTitle = "") :
    handleSubmit tasks taskTitle t fail t2 r = noopRun tasks := by
  simp [handleSubmit, h]

/-- Witness for the amended C2 at a concrete input. -/
theorem claim_C2_witness :
    handleSubmit (initialTasks 0) "   " 5 true 7 "abc" =
      noopRun (initialTasks 0) :=
  claim_C2_amended (initialTasks 0) "   " 5 true 7 "abc" (by decide)

/-- **C6** counterexample: the store's `updateTaskTitle` performs no
same-title comparison — renaming task `"1"` to its current title still
issues a remote call and emits a toast. -/
theorem claim_C6_counterexample :
    (updateTaskTitle (initialTasks 0) "1" "Design landing page mockup"
      false).calls ≠ [] ∧
    (updateTaskTitle (initialTasks 0) "1" "Design landing page mockup"
      false).toasts ≠ [] := by
  refine ⟨?_, ?_⟩ <;> decide

/-- **C6 (amended)**: the same-title guard lives in the UI card, not the
store: `TaskCard.handleSave` skips the store call when the raw edited
title equals the current title, so no state change, no remote call and no
notification occur. -/
theorem claim_C6_amended (tasks : List Task) (task : Task)
    (editTitle : String) (fail : Bool) (h : editTitle = task.title) :
    handleSave tasks task editTitle fail = noopRun tasks := by
  simp [handleSave, h]

/-- Witness for the amended C6 at a concrete input. -/
theorem claim_C6_witness :
    handleSave (initialTasks 0)
      { id := "2", title := "Implement authentication flow",
        column := "inProgress", createdAt := -1000 }
      "Implement authentication flow" true = noopRun (initialTasks 0) :=
  claim_C6_amended (initialTasks 0)
    { id := "2", title := "Implement authentication flow",
      column := "inProgress", createdAt := -1000 }
    "Implement authentication flow" true rfl

end FlowBoard
